import Mathlib

/-!
Verification of the StratoVirt PCIe root-port / num_ops / mem_layout core.

Shallow embedding of:
  * src/util/src/num_ops.rs      (round_up, round_down, extract_u32, deposit_u32)
  * src/micro_vm/src/mem_layout.rs (LayoutEntryType, MEM_LAYOUT for both arches)
  * src/pci/src/root_port.rs     (RootPort: realize, read_config, write_config,
                                  get_state_vec, set_state_mut)

Machine integers are modelled as `Nat` with explicit `% 2^w` where overflow
matters.  Rust `u32` shifts are modelled with the shift amount taken mod 32
(the behaviour of a release build, where shift amounts are masked to the
bit-width).  Collaborator crates that are not part of the source tree
(pci/src/config.rs, pci/src/bus.rs, the address_space crate, the migration
crate and util's byte_code) are modelled from the specification; every such
definition carries a doc comment starting with `Modelled from the spec:`.
-/

namespace StratoVirt

/-! ## util/src/num_ops.rs -/

/-- Model of the 64-bit range bound: `u64` values are the naturals below `2^64`. -/
def U64_MOD : Nat := 2 ^ 64

/-- Model of Rust `u64::checked_add`: `some (a + b)` unless the sum leaves the
`u64` range. -/
def checked_add_u64 (a b : Nat) : Option Nat :=
  if a + b < U64_MOD then some (a + b) else none

/-- Model of Rust `u64::checked_sub`: `some (a - b)` unless `b > a`. -/
def checked_sub_u64 (a b : Nat) : Option Nat :=
  if b ≤ a then some (a - b) else none

/-- `round_up` from src/util/src/num_ops.rs (lines 31-36): on `origin % align = 0`
return `origin`, otherwise `origin.checked_add (align - origin % align)`.
(`align = 0` makes the Rust `%` panic; all theorems assume `0 < align`.) -/
def round_up (origin align : Nat) : Option Nat :=
  if origin % align = 0 then some origin
  else checked_add_u64 origin (align - origin % align)

/-- `round_down` from src/util/src/num_ops.rs (lines 54-59): on `origin % align = 0`
return `origin`, otherwise `origin.checked_sub (origin % align)`. -/
def round_down (origin align : Nat) : Option Nat :=
  if origin % align = 0 then some origin
  else checked_sub_u64 origin (origin % align)

/-- Rust `u32` right shift as compiled in release mode: operand reduced to 32
bits, shift amount masked by 31. -/
def shr32 (v n : Nat) : Nat := (v % 2 ^ 32) >>> (n % 32)

/-- Rust `u32` left shift as compiled in release mode: operand reduced to 32
bits, shift amount masked by 31, result truncated to 32 bits. -/
def shl32 (v n : Nat) : Nat := ((v % 2 ^ 32) <<< (n % 32)) % 2 ^ 32

/-- `extract_u32` from src/util/src/num_ops.rs (lines 130-140): reject
(`none`, after logging) when `length > 32 - start`, otherwise
`(value >> start) & (!0u32 >> (32 - length))`.  `32 - start` is `u32`
subtraction; within the bounds-checked range it coincides with truncated
`Nat` subtraction used here. -/
def extract_u32 (value start length : Nat) : Option Nat :=
  if 32 - start < length then none
  else some (shr32 value start &&& shr32 0xFFFFFFFF (32 - length))

/-- `deposit_u32` from src/util/src/num_ops.rs (lines 198-209): reject when
`length > 32 - start`, otherwise with `mask = (!0u32 >> (32 - length)) << start`
return `(value & !mask) | ((fieldval << start) & mask)`; `!mask` on `u32` is
`mask ^^^ 0xFFFFFFFF`. -/
def deposit_u32 (value start length fieldval : Nat) : Option Nat :=
  if 32 - start < length then none
  else
    let mask := shl32 (shr32 0xFFFFFFFF (32 - length)) start
    some ((value % 2 ^ 32 &&& (mask ^^^ 0xFFFFFFFF)) ||| (shl32 fieldval start &&& mask))

/-! ## micro_vm/src/mem_layout.rs -/

/-- `LayoutEntryType` for aarch64 (src/micro_vm/src/mem_layout.rs lines 17-34),
a `repr(usize)` enumeration starting at `Flash = 0`. -/
inductive LayoutEntryTypeAarch64
  | Flash | GicDist | GicCpu | GicIts | GicRedist | Uart | Rtc | FwCfg
  | Mmio | PcieMmio | PciePio | PcieEcam | Mem | HighGicRedist | HighPcieEcam
  | HighPcieMmio
deriving DecidableEq, Fintype

/-- The `usize` discriminant of each aarch64 layout-entry variant
(`Flash = 0`, successors implicit). -/
def LayoutEntryTypeAarch64.toNat : LayoutEntryTypeAarch64 → Nat
  | .Flash => 0 | .GicDist => 1 | .GicCpu => 2 | .GicIts => 3 | .GicRedist => 4
  | .Uart => 5 | .Rtc => 6 | .FwCfg => 7 | .Mmio => 8 | .PcieMmio => 9
  | .PciePio => 10 | .PcieEcam => 11 | .Mem => 12 | .HighGicRedist => 13
  | .HighPcieEcam => 14 | .HighPcieMmio => 15

/-- The aarch64 variants in declaration order. -/
def layoutVariantsAarch64 : List LayoutEntryTypeAarch64 :=
  [.Flash, .GicDist, .GicCpu, .GicIts, .GicRedist, .Uart, .Rtc, .FwCfg,
   .Mmio, .PcieMmio, .PciePio, .PcieEcam, .Mem, .HighGicRedist, .HighPcieEcam,
   .HighPcieMmio]

/-- `MEM_LAYOUT` for aarch64 (src/micro_vm/src/mem_layout.rs lines 38-55):
the static list of `(base, size)` pairs. -/
def MEM_LAYOUT_AARCH64 : List (Nat × Nat) :=
  [(0, 0x08000000),
   (0x08000000, 0x00010000),
   (0x08010000, 0x00010000),
   (0x08080000, 0x00020000),
   (0x080A0000, 0x00F60000),
   (0x09000000, 0x00001000),
   (0x09010000, 0x00001000),
   (0x09020000, 0x00000018),
   (0x0A000000, 0x00000200),
   (0x10000000, 0x2EFF0000),
   (0x3EFF0000, 0x00010000),
   (0x3F000000, 0x01000000),
   (0x40000000, 0x8000000000),
   (256 <<< 30, 0x2000000),
   (257 <<< 30, 0x10000000),
   (258 <<< 30, 512 <<< 30)]

/-- `LayoutEntryType` for x86_64 (src/micro_vm/src/mem_layout.rs lines 61-70). -/
inductive LayoutEntryTypeX8664
  | MemBelow4g | PcieMmio | PcieEcam | AcpiGed | Mmio | IoApic | LocalApic
  | MemAbove4g
deriving DecidableEq, Fintype

/-- The `usize` discriminant of each x86_64 layout-entry variant. -/
def LayoutEntryTypeX8664.toNat : LayoutEntryTypeX8664 → Nat
  | .MemBelow4g => 0 | .PcieMmio => 1 | .PcieEcam => 2 | .AcpiGed => 3
  | .Mmio => 4 | .IoApic => 5 | .LocalApic => 6 | .MemAbove4g => 7

/-- The x86_64 variants in declaration order. -/
def layoutVariantsX8664 : List LayoutEntryTypeX8664 :=
  [.MemBelow4g, .PcieMmio, .PcieEcam, .AcpiGed, .Mmio, .IoApic, .LocalApic,
   .MemAbove4g]

/-- `MEM_LAYOUT` for x86_64 (src/micro_vm/src/mem_layout.rs lines 74-83). -/
def MEM_LAYOUT_X8664 : List (Nat × Nat) :=
  [(0, 0xC0000000),
   (0xC0000000, 0x20000000),
   (0xE0000000, 0x10000000),
   (0xF0000000, 0x100000),
   (0xF0100000, 0x200),
   (0xFEC00000, 0x100000),
   (0xFEE00000, 0x100000),
   (0x100000000, 0x8000000000)]

end StratoVirt

namespace StratoVirt

/-! ## PCI configuration-space constants

Modelled from the spec: these offsets come from pci/src/config.rs, which is not
part of the included sources; they are the standard PCI configuration-space
header offsets the spec refers to by name (COMMAND, the bridge I/O base, the
bridge memory base/limit block, the BAR pair). -/

/-- Offset of the 16-bit vendor-id register. -/
def VENDOR_ID : Nat := 0x00

/-- Offset of the 16-bit device-id register. -/
def DEVICE_ID : Nat := 0x02

/-- Offset of the 16-bit COMMAND register. -/
def COMMAND : Nat := 0x04

/-- Offset of the 16-bit STATUS register. -/
def STATUS : Nat := 0x06

/-- Offset of the 16-bit sub-class-code register. -/
def SUB_CLASS_CODE : Nat := 0x0A

/-- Offset of the header-type byte. -/
def HEADER_TYPE : Nat := 0x0E

/-- Offset of the first base-address register. -/
def BAR_0 : Nat := 0x10

/-- Offset of the bridge I/O base byte. -/
def IO_BASE : Nat := 0x1C

/-- Offset of the bridge memory base; the 20-byte block starting here holds the
memory and prefetchable-memory base/limit fields. -/
def MEMORY_BASE : Nat := 0x20

/-- Offset of the bridge prefetchable-memory base. -/
def PREF_MEMORY_BASE : Nat := 0x24

/-- Offset of the bridge prefetchable-memory limit. -/
def PREF_MEMORY_LIMIT : Nat := 0x26

/-- Size in bytes of one 32-bit configuration register. -/
def REG_SIZE : Nat := 4

/-- Size of the PCIe extended configuration space. -/
def PCIE_CONFIG_SPACE_SIZE : Nat := 4096

/-- COMMAND bit 0: I/O-space decode enable. -/
def COMMAND_IO_SPACE : Nat := 0x0001

/-- COMMAND bit 1: memory-space decode enable. -/
def COMMAND_MEMORY_SPACE : Nat := 0x0002

/-- Header-type value marking a PCI bridge. -/
def HEADER_TYPE_BRIDGE : Nat := 0x01

/-- Flag marking a 64-bit prefetchable range. -/
def PREF_MEM_RANGE_64BIT : Nat := 0x01

/-- Red Hat vendor id used for the emulated root port. -/
def PCI_VENDOR_ID_REDHAT : Nat := 0x1b36

/-- `CLASS_CODE_PCI_BRIDGE` sub-class code. -/
def CLASS_CODE_PCI_BRIDGE : Nat := 0x0604

/-- `DEVICE_ID_RP` from src/pci/src/root_port.rs line 33. -/
def DEVICE_ID_RP : Nat := 0x000c

/-! ## Address-region tree (modelled from the spec) -/

/-- An entry of a container region: the installed child region is represented
by its identity `rid` (modelling `Arc` pointer identity, since `Region::clone`
is shallow), its placement `offset` and its `size`. -/
structure SubEntry where
  rid : Nat
  offset : Nat
  size : Nat
deriving DecidableEq

/-- A container region: pure bookkeeping node holding (child, offset) entries. -/
structure RegionS where
  size : Nat
  subregions : List SubEntry
deriving DecidableEq

/-- Modelled from the spec: `Region::init_container_region(size)` of the
address_space crate (not under src/) creates an empty container. -/
def init_container_region (n : Nat) : RegionS := ⟨n, []⟩

/-- Two entries overlap when their `[offset, offset+size)` ranges intersect. -/
def entries_overlap (a b : SubEntry) : Bool :=
  decide (a.offset < b.offset + b.size) && decide (b.offset < a.offset + a.size)

/-- Modelled from the spec: `Region::add_subregion(region, offset)` of the
address_space crate (not under src/).  Installing an entry that is already
present is the idempotent re-installation the spec requires of re-mapping
("repeated enable/disable cycles must not accumulate stale entries or fail on
legitimate re-installation"); a genuine overlap with a different entry fails
with a conflict error and mutates nothing. -/
def add_subregion (r : RegionS) (e : SubEntry) : Except Unit RegionS :=
  if e ∈ r.subregions then .ok r
  else if r.subregions.any (fun x => entries_overlap x e) then .error ()
  else .ok { r with subregions := e :: r.subregions }

/-- `add_subregion` as used on the error-logged paths of
src/pci/src/root_port.rs (the failure is logged with `error!` and the caller
continues with the container unchanged). -/
def add_subregion_logged (r : RegionS) (e : SubEntry) : RegionS :=
  match add_subregion r e with
  | .ok s => s
  | .error _ => r

/-! ## PciConfig (modelled from the spec) -/

/-- Modelled from the spec: the `PciConfig` state of pci/src/config.rs (not
under src/): raw register bytes, per-bit write and write-clear masks of the
same size, and the capability-chain cursors. -/
structure PciConfigS where
  config : List Nat
  write_mask : List Nat
  write_clear_mask : List Nat
  last_cap_end : Nat
  last_ext_cap_offset : Nat
  last_ext_cap_end : Nat
deriving DecidableEq

/-- Modelled from the spec: `PciConfig::new(size, num_bars)` creates a zeroed
buffer with masks of the same size (the BAR-count bookkeeping is not needed by
any claim and is dropped). -/
def PciConfig_new (size _num_bars : Nat) : PciConfigS :=
  ⟨List.replicate size 0, List.replicate size 0, List.replicate size 0, 0, 0, 0⟩

/-- Modelled from the spec: per-byte write semantics of `PciConfig::write`
(section 4.1): `new = (old & !write_mask) | (data & write_mask)`, then
`new &= !write_clear_mask` (RW1C applied on every write). -/
def write_byte (old d m c : Nat) : Nat :=
  ((old &&& (255 ^^^ (m % 256))) ||| (d &&& (m % 256))) &&& (255 ^^^ (c % 256))

/-- Modelled from the spec: `PciConfig::read(offset, buf)` (section 4.1):
rejects (leaving the caller's buffer untouched) if `offset+len` exceeds the
buffer size or `len > 4`, otherwise copies raw bytes verbatim.  The returned
list is the caller's buffer after the call. -/
def config_read (cfg : PciConfigS) (offset : Nat) (data : List Nat) : List Nat :=
  if cfg.config.length < offset + data.length ∨ 4 < data.length then data
  else (List.range data.length).map (fun i => cfg.config.getD (offset + i) 0)

/-- Modelled from the spec: `PciConfig::write(offset, data, dev_id)`
(section 4.1): same all-or-nothing bounds validation, then the per-byte
mask/clear-mask update. -/
def config_write (cfg : PciConfigS) (offset : Nat) (data : List Nat) (_dev_id : Nat) :
    PciConfigS :=
  if cfg.config.length < offset + data.length ∨ 4 < data.length then cfg
  else
    { cfg with config := (List.range cfg.config.length).map (fun i =>
        if offset ≤ i ∧ i < offset + data.length then
          write_byte (cfg.config.getD i 0) (data.getD (i - offset) 0)
            (cfg.write_mask.getD i 0) (cfg.write_clear_mask.getD i 0)
        else cfg.config.getD i 0) }

/-- Modelled from the spec: `le_read_u16` of pci/src/lib.rs (not under src/),
little-endian 16-bit read. -/
def le_read_u16 (b : List Nat) (ofs : Nat) : Nat :=
  b.getD ofs 0 + 256 * b.getD (ofs + 1) 0

/-- Modelled from the spec: little-endian 32-bit read (pci/src/lib.rs). -/
def le_read_u32 (b : List Nat) (ofs : Nat) : Nat :=
  b.getD ofs 0 + 256 * b.getD (ofs + 1) 0 + 65536 * b.getD (ofs + 2) 0 +
    16777216 * b.getD (ofs + 3) 0

/-- Modelled from the spec: `le_write_u16` of pci/src/lib.rs, little-endian
16-bit store. -/
def le_write_u16 (b : List Nat) (ofs v : Nat) : List Nat :=
  (b.set ofs (v % 256)).set (ofs + 1) (v / 256 % 256)

/-- Modelled from the spec: `ranges_overlap(start, end, range_start, range_end)`
of pci/src/lib.rs: whether `[start, end)` intersects `[range_start, range_end)`. -/
def ranges_overlap (start e rs re : Nat) : Bool :=
  if re ≤ start ∨ e ≤ rs then false else true

/-! ## PciBus and RootPort -/

/-- Modelled from the spec: the `PciBus` of pci/src/bus.rs (not under src/):
devfn → device map (devices are represented by their names), ordered child-bus
list, and the owned I/O and memory container regions. -/
structure PciBusS where
  devices : List (Nat × String)
  child_buses : List String
  io_region : RegionS
  mem_region : RegionS
deriving DecidableEq

/-- The `RootPort` device of src/pci/src/root_port.rs (x86_64 build, which has
both the I/O and the memory forwarded window).  `io_id`/`mem_id` model the
`Arc` identities of the owned container regions, which are shared with the
secondary bus (`Region::clone` in `RootPort::new` is shallow). -/
structure RootPort where
  name : String
  devfn : Nat
  port_num : Nat
  config : PciConfigS
  io_id : Nat
  mem_id : Nat
  io_region : RegionS
  mem_region : RegionS
  sec_bus_name : String
  dev_id : Nat
  multifunction : Bool
deriving DecidableEq

/-- `RootPort::new` (src/pci/src/root_port.rs lines 73-103): a 64 KiB I/O
container, a `u64::max_value()`-sized memory container, a fresh secondary bus
sharing both, and a `PciConfig` of the PCIe size with two BARs. -/
def RootPort_new (name : String) (devfn port_num : Nat) (multifunction : Bool)
    (io_id mem_id : Nat) : RootPort :=
  { name := name
    devfn := devfn
    port_num := port_num
    config := PciConfig_new PCIE_CONFIG_SPACE_SIZE 2
    io_id := io_id
    mem_id := mem_id
    io_region := init_container_region (2 ^ 16)
    mem_region := init_container_region (U64_MOD - 1)
    sec_bus_name := name
    dev_id := 0
    multifunction := multifunction }

/-- The entry a root port's I/O window occupies in a parent container:
its region identity, installed at offset 0 with the container's size. -/
def io_window (rp : RootPort) : SubEntry := ⟨rp.io_id, 0, rp.io_region.size⟩

/-- The entry a root port's memory window occupies in a parent container. -/
def mem_window (rp : RootPort) : SubEntry := ⟨rp.mem_id, 0, rp.mem_region.size⟩

/-- Modelled from the spec: `PciConfig::update_bar_mapping` (section 4.1, code
in pci/src/config.rs, not under src/): recomputes the BAR windows from the raw
bytes, respecting the COMMAND decode-enable bits, and (re)installs them into
the device's own containers; an overlap failure is logged and leaves the
container unchanged.  The BAR size-probing bookkeeping is outside src/, so the
window extents are abstracted to empty ranges at the decoded bases. -/
def update_bar_mapping (cfg : PciConfigS) (ioR memR : RegionS) : RegionS × RegionS :=
  let cmd := le_read_u16 cfg.config COMMAND
  let ioR := if cmd &&& COMMAND_IO_SPACE ≠ 0 then
      add_subregion_logged ioR ⟨0, le_read_u32 cfg.config BAR_0, 0⟩
    else ioR
  let memR := if cmd &&& COMMAND_MEMORY_SPACE ≠ 0 then
      add_subregion_logged memR ⟨1, le_read_u32 cfg.config (BAR_0 + REG_SIZE), 0⟩
    else memR
  (ioR, memR)

/-- `RootPort::read_config` (src/pci/src/root_port.rs lines 178-189): the
device-level guard rejects `offset + size > PCIE_CONFIG_SPACE_SIZE` or
`size > 4`, leaving the caller's buffer untouched; otherwise it delegates to
the configuration model.  Returns the caller's buffer after the call. -/
def read_config (rp : RootPort) (offset : Nat) (data : List Nat) : List Nat :=
  if PCIE_CONFIG_SPACE_SIZE < offset + data.length ∨ 4 < data.length then data
  else config_read rp.config offset data

/-- `RootPort::write_config` (src/pci/src/root_port.rs lines 191-254): guard,
delegate to the model, re-map the device's own BAR containers when the write
overlaps COMMAND or the BAR pair, and re-install the forwarded windows into
the parent's containers (when the respective COMMAND enable bit is set in the
updated bytes) when the write overlaps COMMAND, the bridge I/O base or the
bridge memory base/limit block. -/
def write_config (rp : RootPort) (parent : PciBusS) (offset : Nat) (data : List Nat) :
    RootPort × PciBusS :=
  let size := data.length
  let e := offset + size
  if PCIE_CONFIG_SPACE_SIZE < e ∨ 4 < size then (rp, parent)
  else
    let rp1 : RootPort := { rp with config := config_write rp.config offset data rp.dev_id }
    let rp2 : RootPort :=
      if ranges_overlap offset e COMMAND (COMMAND + 1) ||
         ranges_overlap offset e BAR_0 (BAR_0 + REG_SIZE * 2) then
        let p := update_bar_mapping rp1.config rp1.io_region rp1.mem_region
        { rp1 with io_region := p.1, mem_region := p.2 }
      else rp1
    let parent2 :=
      if ranges_overlap offset e COMMAND (COMMAND + 1) ||
         ranges_overlap offset e IO_BASE (IO_BASE + 2) ||
         ranges_overlap offset e MEMORY_BASE (MEMORY_BASE + 20) then
        let command := le_read_u16 rp2.config.config COMMAND
        let parentA :=
          if command &&& COMMAND_IO_SPACE ≠ 0 then
            { parent with io_region := add_subregion_logged parent.io_region (io_window rp2) }
          else parent
        if command &&& COMMAND_MEMORY_SPACE ≠ 0 then
          { parentA with mem_region := add_subregion_logged parentA.mem_region (mem_window rp2) }
        else parentA
      else parent
    (rp2, parent2)

/-! ## Realization -/

/-- Modelled from the spec: the mask installation of
`init_write_mask`/`init_write_clear_mask` (section 4.1; code in
pci/src/config.rs, not under src/): default per-bit masks for the generic
header fields plus the bridge-specific base/limit fields, and RW1C bits in
STATUS. -/
def init_write_masks (cfg : PciConfigS) : PciConfigS :=
  { cfg with
    write_mask := (List.range cfg.write_mask.length).map (fun i =>
      if (COMMAND ≤ i ∧ i < COMMAND + 2) ∨ (BAR_0 ≤ i ∧ i < BAR_0 + 8) ∨
         (IO_BASE ≤ i ∧ i < IO_BASE + 2) ∨ (MEMORY_BASE ≤ i ∧ i < MEMORY_BASE + 20)
      then 255 else 0)
    write_clear_mask := (List.range cfg.write_clear_mask.length).map (fun i =>
      if STATUS ≤ i ∧ i < STATUS + 2 then 0xF9 else 0) }

/-- Modelled from the spec: `init_multifunction` (pci/src/lib.rs, not under
src/) sets the multifunction bit of the header-type byte when requested. -/
def init_multifunction_bytes (mf : Bool) (c : List Nat) : List Nat :=
  if mf then c.set HEADER_TYPE (c.getD HEADER_TYPE 0 ||| 0x80) else c

/-- Modelled from the spec: `add_pcie_cap` plus `init_msix` (sections 4.1 and
4.3; code in pci/src/config.rs and pci/src/msix.rs, not under src/): appends
the PCI Express capability and a one-vector MSI-X capability to the standard
chain, advancing `last_cap_end`.  Only its self-contained effect on the
capability cursor matters to the claims. -/
def add_pcie_cap_msix (cfg : PciConfigS) : PciConfigS :=
  { cfg with last_cap_end := max cfg.last_cap_end 0x40 + 0x3C }

/-- The configuration-space setup performed by `RootPort::realize` on the
device itself (src/pci/src/root_port.rs lines 118-137) before any bus-visible
step: masks, vendor/device ids, bridge class code, header type, 64-bit
prefetchable flags, multifunction layout, PCIe and MSI-X capabilities. -/
def realize_config (rp : RootPort) : RootPort :=
  let cfg := init_write_masks rp.config
  let c := cfg.config
  let c := le_write_u16 c VENDOR_ID PCI_VENDOR_ID_REDHAT
  let c := le_write_u16 c DEVICE_ID DEVICE_ID_RP
  let c := le_write_u16 c SUB_CLASS_CODE CLASS_CODE_PCI_BRIDGE
  let c := c.set HEADER_TYPE HEADER_TYPE_BRIDGE
  let c := c.set PREF_MEMORY_BASE PREF_MEM_RANGE_64BIT
  let c := c.set PREF_MEMORY_LIMIT PREF_MEM_RANGE_64BIT
  let c := init_multifunction_bytes rp.multifunction c
  { rp with config := add_pcie_cap_msix { cfg with config := c } }

/-- The ways `RootPort::realize` can fail on the bus-visible path: the two
`add_subregion` calls (chained as subregion-registration errors) and the
devfn-occupied `bail!`, which carries the occupying device's name. -/
inductive RealizeErr
  | ioConflict
  | memConflict
  | devfnUsed (occupant : String)
deriving DecidableEq

/-- `RootPort::realize` (src/pci/src/root_port.rs lines 117-176): after the
device-local configuration setup it installs the secondary bus's I/O and
memory containers as subregions of the parent's containers (offset 0), and
only then checks devfn availability, failing with the occupant's name when the
slot is taken; on success it pushes the secondary bus and inserts the device.
Returns the error, if any, together with the parent bus as left behind. -/
def realize (rp0 : RootPort) (bus : PciBusS) : Option RealizeErr × PciBusS :=
  let rp := realize_config rp0
  match add_subregion bus.io_region (io_window rp) with
  | .error _ => (some .ioConflict, bus)
  | .ok ioR =>
    match add_subregion bus.mem_region (mem_window rp) with
    | .error _ => (some .memConflict, { bus with io_region := ioR })
    | .ok memR =>
      match bus.devices.lookup rp.devfn with
      | some occ => (some (.devfnUsed occ), { bus with io_region := ioR, mem_region := memR })
      | none =>
        (none,
         { bus with
           io_region := ioR
           mem_region := memR
           child_buses := bus.child_buses ++ [rp.sec_bus_name]
           devices := bus.devices ++ [(rp.devfn, rp.name)] })

/-! ## Migration state transfer -/

/-- Byte size of the `RootPortState` structure (src/pci/src/root_port.rs lines
39-47): three 4096-byte arrays followed by three `u16` fields, `repr(C)`
without padding. -/
def ROOT_PORT_STATE_SIZE : Nat := 3 * 4096 + 6

/-- The `bound`-long prefix of `l` written into an `n`-byte zeroed block, as
the copy loop of `get_state_vec` does for each array field. -/
def state_block (n bound : Nat) (l : List Nat) : List Nat :=
  (List.range n).map (fun i => if i < bound then l.getD i 0 else 0)

/-- The two little-endian bytes of a `u16` field. -/
def u16_le_bytes (v : Nat) : List Nat := [v % 256, v / 256 % 256]

/-- `RootPort::get_state_vec` (src/pci/src/root_port.rs lines 262-275): copy
the first `config.len()` bytes of the three buffers into a zeroed
`RootPortState` and serialize it in its fixed `repr(C)` layout (field order:
config_space, write_mask, write_clear_mask, last_cap_end, last_ext_cap_offset,
last_ext_cap_end).  The byte mechanics of `ByteCode::as_bytes` are modelled
from the spec (util's byte_code is not under src/). -/
def get_state_vec (cfg : PciConfigS) : List Nat :=
  let n := cfg.config.length
  state_block 4096 n cfg.config ++ state_block 4096 n cfg.write_mask ++
    state_block 4096 n cfg.write_clear_mask ++
    u16_le_bytes cfg.last_cap_end ++ u16_le_bytes cfg.last_ext_cap_offset ++
    u16_le_bytes cfg.last_ext_cap_end

/-- The migration decode failure (`ErrorKind::FromBytesError("ROOT_PORT")`). -/
inductive MigErr
  | fromBytesErr
deriving DecidableEq

/-- `RootPort::set_state_mut` (src/pci/src/root_port.rs lines 277-290):
`RootPortState::from_bytes` fails exactly when the byte length differs from
the structure size (`ByteCode::from_bytes` modelled from the spec); on success
the config space, both masks (each truncated to the live buffer length, as the
`[..length]` slices do) and the three capability cursors are replaced
together. -/
def set_state_mut (cfg : PciConfigS) (state : List Nat) : Except MigErr PciConfigS :=
  if state.length ≠ ROOT_PORT_STATE_SIZE then .error .fromBytesErr
  else
    let n := cfg.config.length
    .ok { config := (state.take 4096).take n
          write_mask := ((state.drop 4096).take 4096).take n
          write_clear_mask := ((state.drop 8192).take 4096).take n
          last_cap_end := le_read_u16 state 12288
          last_ext_cap_offset := le_read_u16 state 12290
          last_ext_cap_end := le_read_u16 state 12292 }

/-! ## Write sequences and witness fixtures -/

/-- Folding a list of `(offset, data)` guest configuration writes through
`write_config`, threading the device and the parent bus. -/
def apply_writes (rp : RootPort) (bus : PciBusS) : List (Nat × List Nat) → RootPort × PciBusS
  | [] => (rp, bus)
  | w :: ws => apply_writes (write_config rp bus w.1 w.2).1 (write_config rp bus w.1 w.2).2 ws

/-- A concrete root port at devfn 8 (the spec scenario). -/
def sample_port : RootPort := RootPort_new "pcie.1" 8 0 false 1 2

/-- A second root port competing for the same devfn. -/
def sample_port2 : RootPort := RootPort_new "pcie.2" 8 0 false 3 4

/-- An empty parent bus. -/
def empty_bus : PciBusS :=
  ⟨[], [], init_container_region (2 ^ 16), init_container_region (U64_MOD - 1)⟩

/-- A parent bus whose devfn 8 is already held by a device that installed no
subregions into the parent containers. -/
def occupied_bus : PciBusS :=
  ⟨[(8, "dummy")], [], init_container_region (2 ^ 16), init_container_region (U64_MOD - 1)⟩

/-- A parent bus that already holds `sample_port`'s forwarded windows. -/
def window_bus : PciBusS :=
  ⟨[], [], ⟨2 ^ 16, [io_window sample_port]⟩, ⟨U64_MOD - 1, [mem_window sample_port]⟩⟩

/-- A small concrete configuration model used by the migration witnesses. -/
def sample_cfg : PciConfigS := ⟨[1, 2, 3], [4, 5, 6], [7, 8, 9], 10, 11, 12⟩

end StratoVirt

namespace StratoVirt

/-! ## Helper lemmas for bit-level reasoning -/

/-- A bit of a value reduced mod `2^32` is the original bit gated by `i < 32`. -/
lemma tb_mod32 (x i : Nat) : (x % 2 ^ 32).testBit i = (decide (i < 32) && x.testBit i) := by
  rw [Nat.testBit_mod_two_pow]

/-- The all-ones 32-bit word has exactly its low 32 bits set. -/
lemma tb_allones (i : Nat) : (4294967295 : Nat).testBit i = decide (i < 32) := by
  have h : (4294967295 : Nat) = 2 ^ 32 - 1 := by norm_num
  rw [h, Nat.testBit_two_pow_sub_one]

end StratoVirt

namespace StratoVirt

/-! ## Claim theorems for num_ops and mem_layout -/

/-- C7: for every 32-bit value `v` and every `start`, `length` with
`start + length ≤ 32`, `extract_u32 v start length` returns a value, and
depositing that value back with `deposit_u32` returns `v` unchanged. -/
theorem extract_deposit_u32_roundtrip (v s l : Nat) (hv : v < 2 ^ 32) (h : s + l ≤ 32) :
    ∃ x, extract_u32 v s l = some x ∧ deposit_u32 v s l x = some v := by
  have hg : ¬ (32 - s < l) := by omega
  refine ⟨shr32 v s &&& shr32 0xFFFFFFFF (32 - l), by simp [extract_u32, hg], ?_⟩
  simp only [deposit_u32, hg, ite_false, if_neg, not_false_iff, Option.some_inj]
  have hv' : v % 2 ^ 32 = v := Nat.mod_eq_of_lt hv
  apply Nat.eq_of_testBit_eq
  intro i
  by_cases hi : i < 32
  · by_cases hsi : s % 32 ≤ i
    · by_cases hil : (32 - l) % 32 + (i - s % 32) < 32
      · have hix : s % 32 + (i - s % 32) = i := by omega
        simp only [shr32, shl32, hv', Nat.testBit_or, Nat.testBit_and, Nat.testBit_xor,
          tb_mod32, tb_allones, Nat.testBit_shiftLeft, Nat.testBit_shiftRight,
          ge_iff_le, hsi, hi, hil, hix, decide_True, Bool.true_and, Bool.and_true,
          Bool.true_bne, Bool.and_self, Bool.not_and]
        cases hvi : v.testBit i <;> simp
      · simp only [shr32, shl32, hv', Nat.testBit_or, Nat.testBit_and, Nat.testBit_xor,
          tb_mod32, tb_allones, Nat.testBit_shiftLeft, Nat.testBit_shiftRight,
          ge_iff_le, hsi, hi, hil, decide_True, decide_False, Bool.true_and, Bool.and_true,
          Bool.and_false, Bool.false_and, Bool.false_bne, Bool.or_false]
    · simp only [shr32, shl32, hv', Nat.testBit_or, Nat.testBit_and, Nat.testBit_xor,
        tb_mod32, tb_allones, Nat.testBit_shiftLeft, Nat.testBit_shiftRight,
        ge_iff_le, hsi, hi, decide_True, decide_False, Bool.true_and, Bool.and_true,
        Bool.false_and, Bool.and_false, Bool.false_bne, Bool.or_false]
  · have hvb : v.testBit i = false :=
      Nat.testBit_lt_two_pow (lt_of_lt_of_le hv (Nat.pow_le_pow_right (by norm_num) (by omega)))
    simp only [shr32, shl32, hv', Nat.testBit_or, Nat.testBit_and, tb_mod32, hi,
      decide_False, Bool.false_and, Bool.and_false, Bool.false_or, hvb]

/-- Witness for C7: the round trip at `v = 0xfffa`, `start = 0`, `length = 8`
(the scenario literal of the spec). -/
theorem extract_deposit_u32_roundtrip_witness :
    0xfffa < 2 ^ 32 ∧ 0 + 8 ≤ 32 ∧
      (∃ x, extract_u32 0xfffa 0 8 = some x ∧ deposit_u32 0xfffa 0 8 x = some 0xfffa) :=
  ⟨by decide, by decide, extract_deposit_u32_roundtrip 0xfffa 0 8 (by decide) (by decide)⟩

/-- C8: for every `u64` value `x` and alignment `a > 0`, a value returned by
`round_down` is `≤ x` and one returned by `round_up` is `≥ x`; both equal `x`
exactly when `x % a = 0`; `round_down` never returns `none`, and `round_up`
returns `none` exactly when the aligned bound would leave the `u64` range. -/
theorem round_up_round_down_bounds (x a : Nat) (hx : x < U64_MOD) (ha0 : 0 < a)
    (ha : a < U64_MOD) :
    (∀ v, round_down x a = some v → v ≤ x) ∧
    (∀ v, round_up x a = some v → x ≤ v) ∧
    (round_down x a = some x ↔ x % a = 0) ∧
    (round_up x a = some x ↔ x % a = 0) ∧
    round_down x a ≠ none ∧
    (round_up x a = none ↔ x % a ≠ 0 ∧ U64_MOD ≤ x + (a - x % a)) := by
  have hlt : x % a < a := Nat.mod_lt x ha0
  have hle : x % a ≤ x := Nat.mod_le x a
  unfold round_up round_down checked_add_u64 checked_sub_u64 U64_MOD
  split_ifs with h1 h2 <;> simp_all <;> omega

/-- Witness for C8: the spec's scenario literals `round_up 1003 4 = some 1004`
and `round_down 1003 4 = some 1000` fall under the theorem at `x = 1003, a = 4`. -/
theorem round_up_round_down_bounds_witness :
    1003 < U64_MOD ∧ 0 < 4 ∧ 4 < U64_MOD ∧
    ((∀ v, round_down 1003 4 = some v → v ≤ 1003) ∧
     (∀ v, round_up 1003 4 = some v → 1003 ≤ v) ∧
     (round_down 1003 4 = some 1003 ↔ 1003 % 4 = 0) ∧
     (round_up 1003 4 = some 1003 ↔ 1003 % 4 = 0) ∧
     round_down 1003 4 ≠ none ∧
     (round_up 1003 4 = none ↔ 1003 % 4 ≠ 0 ∧ U64_MOD ≤ 1003 + (4 - 1003 % 4))) :=
  ⟨by decide, by decide, by decide,
   round_up_round_down_bounds 1003 4 (by decide) (by decide) (by decide)⟩

/-- C10: for each supported architecture the static `MEM_LAYOUT` table has
strictly increasing base addresses down the table, one entry per
`LayoutEntryType` variant, and the `usize` discriminants of the variants
enumerate the table indices `0..n` in declaration order (so the entry for a
variant sits at index `variant as usize`). -/
theorem mem_layout_ordered_indexed :
    List.Pairwise (fun p q => p.1 < q.1) MEM_LAYOUT_AARCH64 ∧
    MEM_LAYOUT_AARCH64.length = 16 ∧
    layoutVariantsAarch64.map LayoutEntryTypeAarch64.toNat = List.range 16 ∧
    (∀ t : LayoutEntryTypeAarch64, layoutVariantsAarch64.getD t.toNat .Flash = t) ∧
    List.Pairwise (fun p q => p.1 < q.1) MEM_LAYOUT_X8664 ∧
    MEM_LAYOUT_X8664.length = 8 ∧
    layoutVariantsX8664.map LayoutEntryTypeX8664.toNat = List.range 8 ∧
    (∀ t : LayoutEntryTypeX8664, layoutVariantsX8664.getD t.toNat .MemBelow4g = t) := by
  refine ⟨?_, ?_, ?_, ?_, ?_, ?_, ?_, ?_⟩ <;> decide

end StratoVirt

namespace StratoVirt

/-! ## Region lemmas -/

/-- Re-installing an entry that is already present is a no-op success. -/
lemma add_subregion_ok_of_mem (r : RegionS) (e : SubEntry) (h : e ∈ r.subregions) :
    add_subregion r e = .ok r := by
  simp [add_subregion, h]

/-- A successful installation leaves the entry present in the result. -/
lemma mem_of_add_subregion_ok (r r' : RegionS) (e : SubEntry)
    (h : add_subregion r e = .ok r') : e ∈ r'.subregions := by
  unfold add_subregion at h
  split_ifs at h with h1 h2 <;> simp only [Except.ok.injEq] at h <;> rw [← h]
  · exact h1
  · simp

/-- The logged variant keeps the container unchanged on an already-present entry. -/
lemma add_subregion_logged_eq_of_mem (r : RegionS) (e : SubEntry)
    (h : e ∈ r.subregions) : add_subregion_logged r e = r := by
  simp [add_subregion_logged, add_subregion_ok_of_mem r e h]

/-- Installing never removes entries already present. -/
lemma mem_add_subregion_logged (r : RegionS) (e x : SubEntry)
    (h : x ∈ r.subregions) : x ∈ (add_subregion_logged r e).subregions := by
  unfold add_subregion_logged add_subregion
  split_ifs <;> simp [h]

/-- Installing never changes a container's size. -/
lemma add_subregion_logged_size (r : RegionS) (e : SubEntry) :
    (add_subregion_logged r e).size = r.size := by
  unfold add_subregion_logged add_subregion
  split_ifs <;> simp

/-- BAR re-mapping never changes the I/O container's size. -/
lemma update_bar_mapping_size_fst (cfg : PciConfigS) (ioR memR : RegionS) :
    (update_bar_mapping cfg ioR memR).1.size = ioR.size := by
  unfold update_bar_mapping
  dsimp only
  split_ifs <;> simp [add_subregion_logged_size]

/-- BAR re-mapping never changes the memory container's size. -/
lemma update_bar_mapping_size_snd (cfg : PciConfigS) (ioR memR : RegionS) :
    (update_bar_mapping cfg ioR memR).2.size = memR.size := by
  unfold update_bar_mapping
  dsimp only
  split_ifs <;> simp [add_subregion_logged_size]

/-- A configuration write never changes the identity or extent of the device's
forwarded windows. -/
lemma write_config_windows (rp : RootPort) (parent : PciBusS) (offset : Nat)
    (data : List Nat) :
    io_window (write_config rp parent offset data).1 = io_window rp ∧
    mem_window (write_config rp parent offset data).1 = mem_window rp := by
  unfold write_config
  dsimp only
  split_ifs <;>
    simp [io_window, mem_window, update_bar_mapping_size_fst, update_bar_mapping_size_snd]

/-- Unfolding of `realize`: the device-local configuration setup does not
affect the windows, the devfn or the names, so the bus-visible behaviour is
the three-stage match below. -/
lemma realize_eq (rp : RootPort) (bus : PciBusS) :
    realize rp bus =
      match add_subregion bus.io_region (io_window rp) with
      | .error _ => (some .ioConflict, bus)
      | .ok ioR =>
        match add_subregion bus.mem_region (mem_window rp) with
        | .error _ => (some .memConflict, { bus with io_region := ioR })
        | .ok memR =>
          match bus.devices.lookup rp.devfn with
          | some occ =>
            (some (.devfnUsed occ), { bus with io_region := ioR, mem_region := memR })
          | none =>
            (none,
             { bus with
               io_region := ioR
               mem_region := memR
               child_buses := bus.child_buses ++ [rp.sec_bus_name]
               devices := bus.devices ++ [(rp.devfn, rp.name)] }) := rfl

/-! ## Claim theorems for the root port -/

/-- C1: every configuration access with `offset + size > 4096` or `size > 4`
is rejected wholesale by the device-level guard: `read_config` leaves the
caller's buffer unchanged and `write_config` leaves the device and the parent
bus entirely unchanged; no access is partially applied. -/
theorem invalid_access_rejected (rp : RootPort) (parent : PciBusS) (offset : Nat)
    (data : List Nat)
    (h : PCIE_CONFIG_SPACE_SIZE < offset + data.length ∨ 4 < data.length) :
    read_config rp offset data = data ∧ write_config rp parent offset data = (rp, parent) := by
  rcases h with h | h <;> exact ⟨by simp [read_config, h], by simp [write_config, h]⟩

/-- Witness for C1: the out-of-bounds access of the source's own test
(offset 4095 with a 4-byte buffer). -/
theorem invalid_access_rejected_witness :
    (PCIE_CONFIG_SPACE_SIZE < 4095 + ([1, 1, 1, 1] : List Nat).length ∨
      4 < ([1, 1, 1, 1] : List Nat).length) ∧
    (read_config sample_port 4095 [1, 1, 1, 1] = [1, 1, 1, 1] ∧
      write_config sample_port empty_bus 4095 [1, 1, 1, 1] = (sample_port, empty_bus)) :=
  ⟨by decide, invalid_access_rejected sample_port empty_bus 4095 [1, 1, 1, 1] (by decide)⟩

/-- C9: a configuration write never removes a window from the parent's
containers: every subregion installed in the parent's I/O or memory container
before the write is still installed after it, whatever the written bytes
(in particular when the write clears the COMMAND enable bits). -/
theorem write_config_never_removes (rp : RootPort) (parent : PciBusS) (offset : Nat)
    (data : List Nat) (x : SubEntry) :
    (x ∈ parent.io_region.subregions →
      x ∈ (write_config rp parent offset data).2.io_region.subregions) ∧
    (x ∈ parent.mem_region.subregions →
      x ∈ (write_config rp parent offset data).2.mem_region.subregions) := by
  unfold write_config
  dsimp only
  split_ifs <;> constructor <;> intro h <;>
    simp_all [mem_add_subregion_logged]

/-- Witness for C9: a COMMAND write clearing both enable bits leaves the
already-installed I/O window installed. -/
theorem write_config_never_removes_witness :
    io_window sample_port ∈ window_bus.io_region.subregions ∧
    io_window sample_port ∈
      (write_config sample_port window_bus 4 [0]).2.io_region.subregions :=
  ⟨by decide,
   (write_config_never_removes sample_port window_bus 4 [0] (io_window sample_port)).1
     (by decide)⟩

/-- C2 (amended): when the devfn is already occupied, `realize` fails, the
device map and the child-bus list are unchanged and the occupant stays
retrievable; when both container installations succeed first, the error is the
devfn conflict naming the occupant — but the parent's containers have by then
already received the secondary bus's windows, so the failed realization is not
free of globally visible mutation, and when a container installation fails
first the error is a region conflict that names no occupant. -/
theorem realize_devfn_occupied (rp : RootPort) (bus : PciBusS) (occ : String)
    (h : bus.devices.lookup rp.devfn = some occ) :
    (realize rp bus).1 ≠ none ∧
    (realize rp bus).2.devices = bus.devices ∧
    (realize rp bus).2.child_buses = bus.child_buses ∧
    (realize rp bus).2.devices.lookup rp.devfn = some occ ∧
    (∀ ioR memR, add_subregion bus.io_region (io_window rp) = .ok ioR →
      add_subregion bus.mem_region (mem_window rp) = .ok memR →
      (realize rp bus).1 = some (.devfnUsed occ) ∧
      (realize rp bus).2 = { bus with io_region := ioR, mem_region := memR }) := by
  rw [realize_eq]
  rcases hio : add_subregion bus.io_region (io_window rp) with u | ioR
  · simp [h, hio]
  · rcases hmem : add_subregion bus.mem_region (mem_window rp) with u | memR
    · simp [h]
    · simp [h]

/-- Witness for C2 (amended): realizing `sample_port` on a bus whose devfn 8
is held by a windowless device named "dummy". -/
theorem realize_devfn_occupied_witness :
    occupied_bus.devices.lookup sample_port.devfn = some "dummy" ∧
    ((realize sample_port occupied_bus).1 ≠ none ∧
     (realize sample_port occupied_bus).2.devices = occupied_bus.devices ∧
     (realize sample_port occupied_bus).2.child_buses = occupied_bus.child_buses ∧
     (realize sample_port occupied_bus).2.devices.lookup sample_port.devfn = some "dummy" ∧
     (∀ ioR memR, add_subregion occupied_bus.io_region (io_window sample_port) = .ok ioR →
       add_subregion occupied_bus.mem_region (mem_window sample_port) = .ok memR →
       (realize sample_port occupied_bus).1 = some (.devfnUsed "dummy") ∧
       (realize sample_port occupied_bus).2 =
         { occupied_bus with io_region := ioR, mem_region := memR })) :=
  ⟨by decide, realize_devfn_occupied sample_port occupied_bus "dummy" (by decide)⟩

/-- Counterexample for C2 as stated: realizing `sample_port` at the occupied
devfn 8 does fail naming the occupant, but it mutates the parent bus's memory
container before the final insertion check; and when the occupant is another
root port whose windows overlap, the failure is the I/O-subregion conflict,
not a devfn-conflict error naming the occupant. -/
theorem realize_not_atomic_counterexample :
    (realize sample_port occupied_bus).1 = some (.devfnUsed "dummy") ∧
    (realize sample_port occupied_bus).2.mem_region.subregions ≠
      occupied_bus.mem_region.subregions ∧
    (realize sample_port2 (realize sample_port empty_bus).2).1 = some .ioConflict := by
  refine ⟨?_, ?_, ?_⟩ <;> decide

end StratoVirt

namespace StratoVirt

/-- A single valid-or-invalid write leaves the parent's I/O container exactly
unchanged when the device's window is already installed there: the only
possible installation is the idempotent re-installation of the same entry. -/
lemma write_config_io_region_stable (rp : RootPort) (bus : PciBusS) (o : Nat) (d : List Nat)
    (h : io_window rp ∈ bus.io_region.subregions) :
    (write_config rp bus o d).2.io_region = bus.io_region := by
  unfold write_config
  dsimp only
  split_ifs <;>
    simp_all [io_window, update_bar_mapping_size_fst, add_subregion_logged_eq_of_mem]

/-- Extending `write_config_io_region_stable` over any write sequence. -/
lemma apply_writes_io_region_stable (ws : List (Nat × List Nat)) :
    ∀ rp bus, io_window rp ∈ bus.io_region.subregions →
      (apply_writes rp bus ws).2.io_region = bus.io_region ∧
      io_window rp ∈ (apply_writes rp bus ws).2.io_region.subregions := by
  induction ws with
  | nil => exact fun rp bus h => ⟨rfl, h⟩
  | cons w ws ih =>
    intro rp bus h
    have hw := write_config_io_region_stable rp bus w.1 w.2 h
    have hwin := (write_config_windows rp bus w.1 w.2).1
    have hmem : io_window (write_config rp bus w.1 w.2).1 ∈
        (write_config rp bus w.1 w.2).2.io_region.subregions := by
      rw [hwin, hw]; exact h
    have hih := ih (write_config rp bus w.1 w.2).1 (write_config rp bus w.1 w.2).2 hmem
    rw [hwin] at hih
    unfold apply_writes
    exact ⟨hih.1.trans hw, hih.2⟩

/-- C5: for a realized root port the I/O window is already installed in the
parent's I/O container; re-installing it is the no-error idempotent success,
and any sequence of configuration writes — in particular COMMAND writes that
set, clear and re-set the I/O-enable bit — leaves the parent's I/O container
exactly as it was: the window stays installed, no overlap error arises and no
stale entries accumulate. -/
theorem remap_idempotent (rp : RootPort) (bus0 bus : PciBusS) (ws : List (Nat × List Nat))
    (hreal : (realize rp bus0).1 = none)
    (h : io_window rp ∈ bus.io_region.subregions) :
    io_window rp ∈ (realize rp bus0).2.io_region.subregions ∧
    add_subregion bus.io_region (io_window rp) = .ok bus.io_region ∧
    (apply_writes rp bus ws).2.io_region = bus.io_region ∧
    io_window rp ∈ (apply_writes rp bus ws).2.io_region.subregions := by
  refine ⟨?_, add_subregion_ok_of_mem _ _ h,
    (apply_writes_io_region_stable ws rp bus h).1,
    (apply_writes_io_region_stable ws rp bus h).2⟩
  rw [realize_eq] at hreal ⊢
  rcases hio : add_subregion bus0.io_region (io_window rp) with u | ioR <;>
    rw [hio] at hreal
  · simp at hreal
  · rcases hmem : add_subregion bus0.mem_region (mem_window rp) with u | memR <;>
      rw [hmem] at hreal
    · simp at hreal
    · rcases hdev : bus0.devices.lookup rp.devfn with _ | occ <;>
        rw [hdev] at hreal
      · simpa using mem_of_add_subregion_ok _ _ _ hio
      · simp at hreal

/-- Witness for C5: realize `sample_port` on an empty bus, then run the
enable / disable / re-enable COMMAND sequence against the resulting bus. -/
theorem remap_idempotent_witness :
    (realize sample_port empty_bus).1 = none ∧
    io_window sample_port ∈ (realize sample_port empty_bus).2.io_region.subregions ∧
    (io_window sample_port ∈ (realize sample_port empty_bus).2.io_region.subregions ∧
     add_subregion (realize sample_port empty_bus).2.io_region (io_window sample_port) =
       .ok (realize sample_port empty_bus).2.io_region ∧
     (apply_writes sample_port (realize sample_port empty_bus).2
         [(4, [3]), (4, [0]), (4, [3])]).2.io_region =
       (realize sample_port empty_bus).2.io_region ∧
     io_window sample_port ∈
       (apply_writes sample_port (realize sample_port empty_bus).2
           [(4, [3]), (4, [0]), (4, [3])]).2.io_region.subregions) :=
  ⟨by decide, by decide,
   remap_idempotent sample_port empty_bus (realize sample_port empty_bus).2
     [(4, [3]), (4, [0]), (4, [3])] (by decide) (by decide)⟩

/-- C6: a valid write whose range overlaps COMMAND, the bridge I/O base pair
or the bridge memory base/limit block makes the device re-read COMMAND from
the updated bytes and perform the installation of its I/O window into the
parent's I/O container exactly when the I/O-enable bit is set, and of its
memory window into the parent's memory container exactly when the
memory-enable bit is set; a valid write overlapping none of these fields
leaves the parent bus untouched. -/
theorem write_config_window_gating (rp : RootPort) (parent : PciBusS) (offset : Nat)
    (data : List Nat)
    (hval : ¬ (PCIE_CONFIG_SPACE_SIZE < offset + data.length ∨ 4 < data.length)) :
    (((ranges_overlap offset (offset + data.length) COMMAND (COMMAND + 1) ||
       ranges_overlap offset (offset + data.length) IO_BASE (IO_BASE + 2) ||
       ranges_overlap offset (offset + data.length) MEMORY_BASE (MEMORY_BASE + 20)) = true) →
      ((write_config rp parent offset data).2.io_region =
        if le_read_u16 (config_write rp.config offset data rp.dev_id).config COMMAND &&&
            COMMAND_IO_SPACE ≠ 0
        then add_subregion_logged parent.io_region (io_window rp)
        else parent.io_region) ∧
      ((write_config rp parent offset data).2.mem_region =
        if le_read_u16 (config_write rp.config offset data rp.dev_id).config COMMAND &&&
            COMMAND_MEMORY_SPACE ≠ 0
        then add_subregion_logged parent.mem_region (mem_window rp)
        else parent.mem_region)) ∧
    (((ranges_overlap offset (offset + data.length) COMMAND (COMMAND + 1) ||
       ranges_overlap offset (offset + data.length) IO_BASE (IO_BASE + 2) ||
       ranges_overlap offset (offset + data.length) MEMORY_BASE (MEMORY_BASE + 20)) = false) →
      (write_config rp parent offset data).2 = parent) := by
  unfold write_config
  dsimp only
  rw [if_neg hval]
  constructor
  · intro hov
    rw [hov]
    dsimp only
    split_ifs <;>
      simp_all [io_window, mem_window, update_bar_mapping_size_fst, update_bar_mapping_size_snd]
  · intro hov
    rw [hov]
    simp

/-- Witness for C6: a one-byte write of 0x03 to COMMAND on an empty parent
bus, enabling both windows. -/
theorem write_config_window_gating_witness :
    ¬ (PCIE_CONFIG_SPACE_SIZE < 4 + ([3] : List Nat).length ∨ 4 < ([3] : List Nat).length) ∧
    ((ranges_overlap 4 (4 + ([3] : List Nat).length) COMMAND (COMMAND + 1) ||
      ranges_overlap 4 (4 + ([3] : List Nat).length) IO_BASE (IO_BASE + 2) ||
      ranges_overlap 4 (4 + ([3] : List Nat).length) MEMORY_BASE (MEMORY_BASE + 20)) = true) ∧
    (((write_config sample_port empty_bus 4 [3]).2.io_region =
        if le_read_u16 (config_write sample_port.config 4 [3] sample_port.dev_id).config
              COMMAND &&& COMMAND_IO_SPACE ≠ 0
        then add_subregion_logged empty_bus.io_region (io_window sample_port)
        else empty_bus.io_region) ∧
     ((write_config sample_port empty_bus 4 [3]).2.mem_region =
        if le_read_u16 (config_write sample_port.config 4 [3] sample_port.dev_id).config
              COMMAND &&& COMMAND_MEMORY_SPACE ≠ 0
        then add_subregion_logged empty_bus.mem_region (mem_window sample_port)
        else empty_bus.mem_region)) :=
  ⟨by decide, by decide,
   (write_config_window_gating sample_port empty_bus 4 [3] (by decide)).1 (by decide)⟩

end StratoVirt

namespace StratoVirt

/-- A serialized block always has its nominal length. -/
lemma state_block_length (n bound : Nat) (l : List Nat) :
    (state_block n bound l).length = n := by
  simp [state_block]

/-- Reading every index of a list back by `getD` reproduces the list. -/
lemma map_getD_range (l : List Nat) :
    (List.range l.length).map (fun i => l.getD i 0) = l := by
  apply List.ext_getElem
  · simp
  · intro i h1 h2
    simp [List.getD, List.getElem?_eq_getElem h2]

/-- Taking back the copied prefix of a serialized block recovers the source
buffer. -/
lemma state_block_take_eq (n : Nat) (l : List Nat) (h : l.length ≤ n) :
    (state_block n l.length l).take l.length = l := by
  unfold state_block
  rw [← List.map_take, List.take_range]
  have hm : min l.length n = l.length := by omega
  rw [hm]
  have hcong : ∀ i ∈ List.range l.length,
      (if i < l.length then l.getD i 0 else 0) = l.getD i 0 := by
    intro i hi
    simp [List.mem_range.mp hi]
  rw [List.map_congr_left hcong, map_getD_range]

/-- Indexing past a left append factor reads from the right factor. -/
lemma getD_append_right (l1 l2 : List Nat) (n : Nat) (h : l1.length ≤ n) :
    (l1 ++ l2).getD n 0 = l2.getD (n - l1.length) 0 := by
  simp [List.getD, List.getElem?_append_right h]

/-- Decoding behaviour of `set_state_mut` on a byte vector assembled from the
three 4096-byte array blocks and the 6-byte tail of `RootPortState`. -/
lemma set_state_mut_append (cfg : PciConfigS) (a b c t : List Nat)
    (ha : a.length = 4096) (hb : b.length = 4096) (hc : c.length = 4096)
    (ht : t.length = 6) :
    set_state_mut cfg (a ++ b ++ c ++ t) =
      .ok { config := a.take cfg.config.length
            write_mask := b.take cfg.config.length
            write_clear_mask := c.take cfg.config.length
            last_cap_end := t.getD 0 0 + 256 * t.getD 1 0
            last_ext_cap_offset := t.getD 2 0 + 256 * t.getD 3 0
            last_ext_cap_end := t.getD 4 0 + 256 * t.getD 5 0 } := by
  have hassoc : a ++ b ++ c ++ t = a ++ (b ++ (c ++ t)) := by
    simp [List.append_assoc]
  rw [hassoc]
  have hlen : (a ++ (b ++ (c ++ t))).length = ROOT_PORT_STATE_SIZE := by
    simp [ha, hb, hc, ht, ROOT_PORT_STATE_SIZE]
  have htake : (a ++ (b ++ (c ++ t))).take 4096 = a := List.take_left' ha
  have hdropa : (a ++ (b ++ (c ++ t))).drop 4096 = b ++ (c ++ t) := List.drop_left' ha
  have h8192 : (a ++ (b ++ (c ++ t))).drop 8192 = c ++ t := by
    have he : (8192 : Nat) = 4096 + 4096 := rfl
    rw [he, ← List.drop_drop, hdropa, List.drop_left' hb]
  have hgd : ∀ i, (a ++ (b ++ (c ++ t))).getD (12288 + i) 0 = t.getD i 0 := by
    intro i
    rw [getD_append_right _ _ _ (by rw [ha]; omega), ha,
      show 12288 + i - 4096 = 8192 + i from by omega,
      getD_append_right _ _ _ (by rw [hb]; omega), hb,
      show 8192 + i - 4096 = 4096 + i from by omega,
      getD_append_right _ _ _ (by rw [hc]; omega), hc,
      show 4096 + i - 4096 = i from by omega]
  have e0 := hgd 0
  have e1 := hgd 1
  have e2 := hgd 2
  have e3 := hgd 3
  have e4 := hgd 4
  have e5 := hgd 5
  norm_num at e0 e1 e2 e3 e4 e5
  unfold set_state_mut
  rw [if_neg (by rw [hlen]; exact fun hx => hx rfl)]
  rw [htake, hdropa, h8192, List.take_left' hb, List.take_left' hc]
  simp only [le_read_u16]
  norm_num
  rw [e0, e1, e2, e3, e4, e5]
  exact ⟨rfl, rfl, rfl⟩

/-- C3: restoring the bytes produced by `get_state_vec` succeeds and
reproduces exactly the same configuration tuple — config space, both masks
and the three capability-chain cursors.  The hypotheses record the structural
invariants of a real device: the three buffers share one length of at most
4096 and the cursors are `u16` values. -/
theorem get_set_state_roundtrip (cfg : PciConfigS)
    (hc : cfg.config.length ≤ 4096)
    (hw : cfg.write_mask.length = cfg.config.length)
    (hcl : cfg.write_clear_mask.length = cfg.config.length)
    (h1 : cfg.last_cap_end < 65536) (h2 : cfg.last_ext_cap_offset < 65536)
    (h3 : cfg.last_ext_cap_end < 65536) :
    set_state_mut cfg (get_state_vec cfg) = .ok cfg := by
  unfold get_state_vec
  have hassoc :
      state_block 4096 cfg.config.length cfg.config ++
        state_block 4096 cfg.config.length cfg.write_mask ++
        state_block 4096 cfg.config.length cfg.write_clear_mask ++
        u16_le_bytes cfg.last_cap_end ++ u16_le_bytes cfg.last_ext_cap_offset ++
        u16_le_bytes cfg.last_ext_cap_end =
      state_block 4096 cfg.config.length cfg.config ++
        state_block 4096 cfg.config.length cfg.write_mask ++
        state_block 4096 cfg.config.length cfg.write_clear_mask ++
        (u16_le_bytes cfg.last_cap_end ++ u16_le_bytes cfg.last_ext_cap_offset ++
          u16_le_bytes cfg.last_ext_cap_end) := by
    simp [List.append_assoc]
  rw [hassoc,
    set_state_mut_append cfg _ _ _ _ (state_block_length _ _ _) (state_block_length _ _ _)
      (state_block_length _ _ _) (by simp [u16_le_bytes])]
  rcases cfg with ⟨cc, wm, wcm, d1, d2, d3⟩
  simp only at hc hw hcl h1 h2 h3 ⊢
  simp only [Except.ok.injEq, PciConfigS.mk.injEq]
  refine ⟨?_, ?_, ?_, ?_, ?_, ?_⟩
  · exact state_block_take_eq 4096 cc hc
  · rw [← hw]
    exact state_block_take_eq 4096 wm (hw ▸ hc)
  · rw [← hcl]
    exact state_block_take_eq 4096 wcm (hcl ▸ hc)
  · simp [u16_le_bytes]
    omega
  · simp [u16_le_bytes]
    omega
  · simp [u16_le_bytes]
    omega

/-- Witness for C3: the round trip at a small concrete configuration. -/
theorem get_set_state_roundtrip_witness :
    sample_cfg.config.length ≤ 4096 ∧
    sample_cfg.write_mask.length = sample_cfg.config.length ∧
    sample_cfg.write_clear_mask.length = sample_cfg.config.length ∧
    sample_cfg.last_cap_end < 65536 ∧ sample_cfg.last_ext_cap_offset < 65536 ∧
    sample_cfg.last_ext_cap_end < 65536 ∧
    set_state_mut sample_cfg (get_state_vec sample_cfg) = .ok sample_cfg :=
  ⟨by decide, by decide, by decide, by decide, by decide, by decide,
   get_set_state_roundtrip sample_cfg (by decide) (by decide) (by decide) (by decide)
     (by decide) (by decide)⟩

/-- C4: `set_state_mut` fails with the decode error on every byte vector whose
length differs from the `RootPortState` size, producing no new state; on a
vector of the right length it succeeds and replaces config space, both masks
and all three capability cursors together — the result is one atomic function
of the bytes and the live buffer length, independent of any other prior
device state. -/
theorem set_state_length_guard (cfg : PciConfigS) (bytes : List Nat) :
    (bytes.length ≠ ROOT_PORT_STATE_SIZE → set_state_mut cfg bytes = .error .fromBytesErr) ∧
    (bytes.length = ROOT_PORT_STATE_SIZE →
      set_state_mut cfg bytes =
        .ok { config := (bytes.take 4096).take cfg.config.length
              write_mask := ((bytes.drop 4096).take 4096).take cfg.config.length
              write_clear_mask := ((bytes.drop 8192).take 4096).take cfg.config.length
              last_cap_end := le_read_u16 bytes 12288
              last_ext_cap_offset := le_read_u16 bytes 12290
              last_ext_cap_end := le_read_u16 bytes 12292 } ∧
      ∀ cfg' : PciConfigS, cfg'.config.length = cfg.config.length →
        set_state_mut cfg' bytes = set_state_mut cfg bytes) := by
  constructor
  · intro h
    simp [set_state_mut, h]
  · intro h
    constructor
    · simp [set_state_mut, h]
    · intro cfg' hlen
      simp [set_state_mut, h, hlen]

/-- Witness for C4: a 3-byte vector is rejected with the decode error; a
12294-byte vector decodes into the fully replaced state. -/
theorem set_state_length_guard_witness :
    ([1, 2, 3] : List Nat).length ≠ ROOT_PORT_STATE_SIZE ∧
    set_state_mut sample_cfg [1, 2, 3] = .error .fromBytesErr ∧
    (List.replicate 12294 7).length = ROOT_PORT_STATE_SIZE ∧
    set_state_mut sample_cfg (List.replicate 12294 7) =
      .ok { config := ((List.replicate 12294 7).take 4096).take sample_cfg.config.length
            write_mask :=
              (((List.replicate 12294 7).drop 4096).take 4096).take sample_cfg.config.length
            write_clear_mask :=
              (((List.replicate 12294 7).drop 8192).take 4096).take sample_cfg.config.length
            last_cap_end := le_read_u16 (List.replicate 12294 7) 12288
            last_ext_cap_offset := le_read_u16 (List.replicate 12294 7) 12290
            last_ext_cap_end := le_read_u16 (List.replicate 12294 7) 12292 } :=
  ⟨by decide, (set_state_length_guard sample_cfg [1, 2, 3]).1 (by decide),
   by rw [List.length_replicate]; decide,
   ((set_state_length_guard sample_cfg (List.replicate 12294 7)).2
     (by rw [List.length_replicate]; decide)).1⟩

end StratoVirt
